import Mathlib

/-!
Shallow embedding of the range-tailing logic of the js-logtail repository.

The repository ships two near-duplicate implementations in `src/logtail.js`:
an HTMLElement custom element (first half of the file) and a plain class
(second half, the one exercised by `src/tests/logtail.spec.js`).  The class
is the coherent, executable implementation, so the session state machine
below (`getRange`, `sendRangeRequest`, `getLog`, `poll`) embeds it with
explicit state passing: every mutation of the instance fields performed
before a throw persists, exactly as in the JavaScript.  Log data and bodies
are `List Char` (JavaScript string code units); HTTP responses are records
of the status, the two headers the code reads, and the body.

The buffer-trim block (`this.logData.length > this.load` ... `substring`)
exists only in the element variant's `getLog`; it is embedded as `elTrim` /
`elMergeStep` over the values the block reads.  The element variant's
first-load clip (which compares the Content-Length value with the reported
total) is embedded as `elFirstLoadMerge` for comparison with the class
variant's clip guard, which compares `data.size` - a property that is
`undefined` on JavaScript strings, so that comparison is always false
(`jsUndefLt` below).
-/

namespace LogTail

/-- Errors thrown by the class implementation.  Each constructor is one of
the error classes of `src/logtail.js` (or the built-in `TypeError`, thrown
by `parseInt2` on a non-digit argument and by the `null` dereference in the
416 branch and in the first-load range construction). -/
inductive Err where
  | fetchError
  | headRequest
  | missingHeader
  | non206 (status : Nat)
  | truncated
  | unexpected (status : Nat)
  | tooLong (len : Nat)
  | typeError
  deriving DecidableEq

/-- Notifications emitted by `poll`: `emit(DataAppendedEvent.name, ...)` with
the newly appended content, and for a thrown error `e` the pair
`emit(e.constructor.name, e)` followed by `emit('error', e)`. -/
inductive Ev where
  | dataAppended (content : List Char)
  | typedErr (e : Err)
  | genericErr (e : Err)
  deriving DecidableEq

/-- The mutable per-instance fields of the class `LogTail` that the tailing
logic reads and writes.  `logFileSizeRaw` is `_logFileSize` (`none` while the
field was never assigned), `loadBytesRaw` is `_loadBytes`, `pollIntervalRaw`
is `_pollInterval` (for both, `none` means the setter was never run and the
getter falls back to the default), and the remaining fields are `_firstLoad`,
`_mustGet206`, `_logData`, `_paused`, `_loading`. -/
structure Session where
  logFileSizeRaw : Option Nat
  firstLoad : Bool
  mustGet206 : Bool
  logData : List Char
  loadBytesRaw : Option Nat
  pollIntervalRaw : Option Nat
  paused : Bool
  loading : Bool
  deriving DecidableEq

/-- Getter `logFileSize`: `this._logFileSize || null` - both an unassigned
field and the value `0` are falsy, so both give `null`. -/
def logFileSize (s : Session) : Option Nat :=
  match s.logFileSizeRaw with
  | some (n + 1) => some (n + 1)
  | _ => none

/-- Getter `loadBytes`: `this._loadBytes || defaultOpts.loadBytes`
(default `30 * 1024`; `0` is falsy). -/
def loadBytes (s : Session) : Nat :=
  match s.loadBytesRaw with
  | some (n + 1) => n + 1
  | _ => 30 * 1024

/-- Getter `pollInterval`: `this._pollInterval || defaultOpts.pollInterval`
(default `1000`; `0` is falsy). -/
def pollInterval (s : Session) : Nat :=
  match s.pollIntervalRaw with
  | some (n + 1) => n + 1
  | _ => 1000

/-- The HTTP response of one range request, restricted to what the code
reads: the status, the `Content-Range` and `Content-Length` headers
(`none` when the header is absent, i.e. `headers.get` returns `null`),
and the body text. -/
structure RangeResponse where
  status : Nat
  contentRange : Option (List Char)
  contentLength : Option (List Char)
  body : List Char
  deriving DecidableEq

/-- The outcome of the transport call for one cycle: `fail` when `fetch`
itself throws (no response obtained), otherwise the response. -/
inductive Transport where
  | fail
  | resp (r : RangeResponse)
  deriving DecidableEq

/-- JavaScript `value * 1` is not modelled; `parseInt2` is.  It throws
`TypeError` unless the argument (after string coercion) is all digits;
`headers.get` returning `null` coerces to the string `"null"`, and a
missing `split` component to `"undefined"`, both rejected, so the `none`
case is a `TypeError` as well. -/
def digitsToNat (l : List Char) : Nat :=
  l.foldl (fun a c => a * 10 + (c.toNat - 48)) 0

/-- Method `parseInt2`: strict digits-only parse, `TypeError` otherwise. -/
def parseInt2 (v : Option (List Char)) : Except Err Nat :=
  match v with
  | none => Except.error Err.typeError
  | some l =>
      if !l.isEmpty && l.all Char.isDigit then Except.ok (digitsToNat l)
      else Except.error Err.typeError

/-- JavaScript `String.prototype.split` with a one-character separator,
on code-unit lists: `"a/b".split('/') = ["a","b"]`, `"".split('/') = [""]`. -/
def splitOnChar (sep : Char) : List Char → List (List Char)
  | [] => [[]]
  | c :: cs =>
      match splitOnChar sep cs with
      | [] => [[]]
      | h :: t => if c = sep then [] :: h :: t else (c :: h) :: t

/-- Index of the first `'\n'`, i.e. `indexOf('\n')`; `none` models the
JavaScript result `-1` (in which case the caller's `substring(start + 1)`
is `substring(0)`, the whole string). -/
def jsFindNl : List Char → Option Nat
  | [] => none
  | c :: cs => if c = '\n' then some 0 else (jsFindNl cs).map (· + 1)

/-- The two-argument `indexOf("\n", from)`: first index at or after `from`. -/
def jsIndexOfFromNl (l : List Char) (i : Nat) : Option Nat :=
  (jsFindNl (l.drop i)).map (fun j => i + j)

/-- The clip `data.substring(data.indexOf('\n') + 1)`: drop through the first
line terminator; with no terminator, `indexOf` is `-1` and `substring(0)`
keeps the whole string. -/
def jsClip (data : List Char) : List Char :=
  match jsFindNl data with
  | some p => data.drop (p + 1)
  | none => data

/-- The class variant's first-load clip guard is `data.size < this.logFileSize`
where `data` is a string; strings have no `size` property, so the left side is
`undefined` and the comparison is false for every right-hand value. -/
def jsUndefLt (_ : Option Nat) : Bool := false

/-- Method `getRange` of the class.  `probe` stands for the result of
`await this.requestLogSize()` on the first-load path: `Except.ok n` when the
HEAD request succeeded with a digit `Content-Length` of value `n`, otherwise
the thrown error.  When the probe reports size `0`, the getter
`this.logFileSize` is `null` and `null.toString()` in the range construction
throws a `TypeError` before `_firstLoad` is assigned.  The returned string is
the `Range` value; all field mutations performed before a throw persist in
the returned session. -/
def getRange (s : Session) (probe : Except Err Nat) :
    Session × Except Err String :=
  match logFileSize s with
  | none =>
      match probe with
      | Except.error e => (s, Except.error e)
      | Except.ok n =>
          match logFileSize { s with logFileSizeRaw := some n } with
          | none => ({ s with logFileSizeRaw := some n }, Except.error Err.typeError)
          | some sz =>
              ({ s with logFileSizeRaw := some n, firstLoad := true,
                        mustGet206 := false },
               Except.ok ("-" ++ Nat.repr
                 (if loadBytes s > sz then sz else loadBytes s)))
  | some n =>
      ({ s with firstLoad := false, mustGet206 := decide (n > 1) },
       Except.ok (Nat.repr (n - 1) ++ "-"))

/-- Method `sendRangeRequest` of the class, from the point where the
response is in hand (a thrown `fetch` is `Transport.fail`, wrapped into
`FetchError`).  On 206 a falsy (`null` or empty) `Content-Range` is the
missing-header error; otherwise `_logFileSize` is assigned the parsed total
before `Content-Length` is parsed, so a bad `Content-Length` throws with the
size already updated.  On 200 with `_mustGet206` set the non-206 error is
thrown; on 416 the error message dereferences the `Content-Range` header, a
`TypeError` when it is `null`, otherwise the truncation error; any other
status is the unexpected-response error. -/
def sendRangeRequest (s : Session) (t : Transport) :
    Session × Except Err (List Char) :=
  match t with
  | Transport.fail => (s, Except.error Err.fetchError)
  | Transport.resp r =>
      if r.status = 206 then
        match r.contentRange with
        | none => (s, Except.error Err.missingHeader)
        | some cr =>
            if cr.isEmpty then (s, Except.error Err.missingHeader)
            else
              match parseInt2 ((splitOnChar '/' cr)[1]?) with
              | Except.error e => (s, Except.error e)
              | Except.ok total =>
                  match parseInt2 r.contentLength with
                  | Except.error e =>
                      ({ s with logFileSizeRaw := some total }, Except.error e)
                  | Except.ok _ =>
                      ({ s with logFileSizeRaw := some total }, Except.ok r.body)
      else if r.status = 200 then
        if s.mustGet206 then (s, Except.error (Err.non206 r.status))
        else
          match parseInt2 r.contentLength with
          | Except.error e => (s, Except.error e)
          | Except.ok n => ({ s with logFileSizeRaw := some n }, Except.ok r.body)
      else if r.status = 416 then
        match r.contentRange with
        | none => (s, Except.error Err.typeError)
        | some _ => (s, Except.error Err.truncated)
      else (s, Except.error (Err.unexpected r.status))

/-- Method `getLog` of the class: compute the range, send the request, reject
an over-long first-load body before any merge, then merge.  On first load the
clip guard `data.size < this.logFileSize` is `jsUndefLt` (always false), so
the body is kept verbatim; otherwise the first byte (the anchor) is dropped
and the remainder appended.  The second component is the returned
`newContent`. -/
def getLog (s : Session) (probe : Except Err Nat) (t : Transport) :
    Session × Except Err (List Char) :=
  match getRange s probe with
  | (s1, Except.error e) => (s1, Except.error e)
  | (s1, Except.ok _) =>
      match sendRangeRequest s1 t with
      | (s2, Except.error e) => (s2, Except.error e)
      | (s2, Except.ok data) =>
          if s2.firstLoad && decide (data.length > loadBytes s2) then
            (s2, Except.error (Err.tooLong data.length))
          else if s2.firstLoad then
            if jsUndefLt (logFileSize s2) then
              ({ s2 with logData := jsClip data }, Except.ok (jsClip data))
            else ({ s2 with logData := data }, Except.ok data)
          else
            ({ s2 with logData := s2.logData ++ data.drop 1 },
             Except.ok (data.drop 1))

/-- The outcome of one `poll` invocation: the session afterwards, the emitted
events in order, whether the cycle ran (was not skipped by the
`paused || loading` guard), and the `setTimeout` delay of the rescheduled
cycle (`none` when no reschedule happened). -/
structure CycleOut where
  state : Session
  events : List Ev
  requested : Bool
  schedule : Option Nat
  deriving DecidableEq

/-- Method `poll` of the class.  A skipped cycle returns from inside the
`try`, before the `setTimeout` line, so it does not reschedule.  On success
`_loading` is cleared and the data-appended event carries `getLog`'s return
value; on a thrown error the `_loading = false` line is skipped (the flag
stays set), the typed event and the generic error event are emitted, and the
`setTimeout` after the catch still runs. -/
def poll (s : Session) (probe : Except Err Nat) (t : Transport) : CycleOut :=
  if s.paused || s.loading then ⟨s, [], false, none⟩
  else
    match getLog { s with loading := true } probe t with
    | (s2, Except.ok data) =>
        ⟨{ s2 with loading := false }, [Ev.dataAppended data], true,
         some (pollInterval s2)⟩
    | (s2, Except.error e) =>
        ⟨s2, [Ev.typedErr e, Ev.genericErr e], true, some (pollInterval s2)⟩

/-- Iterated poll cycles against a fixed per-cycle transport outcome. -/
def iterCycles (probe : Except Err Nat) (t : Transport) : Nat → Session → Session
  | 0, s => s
  | k + 1, s => iterCycles probe t k (poll s probe t).state

/-- One cycle's inputs for a run of successful 206 cycles of the class
implementation: the `Content-Range` and `Content-Length` header values and
the body. -/
structure CycleIn where
  cr : List Char
  cl : List Char
  body : List Char

/-- A cycle input is well formed when its `Content-Range` is non-empty
with a digit total of positive value and its `Content-Length` parses. -/
def goodIn (cin : CycleIn) : Prop :=
  (∃ t, parseInt2 ((splitOnChar '/' cin.cr)[1]?) = Except.ok (t + 1)) ∧
    cin.cr.isEmpty = false ∧ ∃ j, parseInt2 cin.cl = Except.ok j

/-- Run a list of successful-cycle inputs through `poll`. -/
def runCycles (probe : Except Err Nat) : Session → List CycleIn → Session
  | s, [] => s
  | s, cin :: rest =>
      runCycles probe
        (poll s probe (Transport.resp ⟨206, some cin.cr, some cin.cl, cin.body⟩)).state
        rest

/-- Lines `this.logData.length > this.load` ... `substring(start + 1)` of the
element variant's `getLog`: when the buffer exceeds `load`, search for the
first line terminator at or after position `length - load` and drop
everything through it; when `indexOf` returns `-1` the `substring(0)` keeps
the whole buffer.  `load` is the value read from `this.load` (the element
class defines a `loadBytes` accessor, not `load`, so unless a caller assigns
a plain `load` property this read yields `undefined` and the guard is never
taken; the model takes the value read as a parameter). -/
def elTrim (load : Nat) (buf : List Char) : List Char :=
  if load < buf.length then
    match jsIndexOfFromNl buf (buf.length - load) with
    | some p => buf.drop (p + 1)
    | none => buf
  else buf

/-- The element variant's non-first-load merge step: drop the anchor byte,
append, then trim. -/
def elMergeStep (load : Nat) (buf body : List Char) : List Char :=
  elTrim load (buf ++ body.drop 1)

/-- The element variant's first-load merge (its lines 100-107): clip through
the first line terminator when the `Content-Length` value is smaller than the
reported total, else keep the body verbatim. -/
def elFirstLoadMerge (contentSize totalSize : Nat) (data : List Char) : List Char :=
  if contentSize < totalSize then jsClip data else data

/-- Concrete first-load session for evaluating the class variant's clip:
no size recorded yet, defaults everywhere, not paused, not loading. -/
def sFresh : Session :=
  ⟨none, false, false, [], none, none, false, false⟩

/-- Concrete 206 response whose reported total (100) strictly exceeds the
body length (5) and whose body contains a line terminator. -/
def rClip : RangeResponse :=
  ⟨206, some ("95-99/100".toList), some ("5".toList), "ab\ncd".toList⟩

/-! ## Helper lemmas -/

/-- When `jsFindNl` reports no terminator the list contains none. -/
theorem jsFindNl_eq_none {l : List Char} (h : jsFindNl l = none) : '\n' ∉ l := by
  induction l with
  | nil => simp
  | cons c cs ih =>
      simp only [jsFindNl] at h
      by_cases hc : c = '\n'
      · rw [if_pos hc] at h
        exact absurd h (by simp)
      · rw [if_neg hc] at h
        have h2 : jsFindNl cs = none := Option.map_eq_none'.mp h
        intro hm
        rcases List.mem_cons.mp hm with h3 | h3
        · exact hc h3.symm
        · exact ih h2 h3

/-- A reported index is in range and points at a line terminator. -/
theorem jsFindNl_eq_some {l : List Char} {j : Nat} (h : jsFindNl l = some j) :
    j < l.length ∧ l[j]? = some '\n' := by
  induction l generalizing j with
  | nil => exact absurd h (by simp [jsFindNl])
  | cons c cs ih =>
      simp only [jsFindNl] at h
      by_cases hc : c = '\n'
      · rw [if_pos hc] at h
        injection h with h
        subst h
        exact ⟨Nat.succ_pos _, by simp [hc]⟩
      · rw [if_neg hc] at h
        rcases Option.map_eq_some'.mp h with ⟨j1, hj1, hj2⟩
        rcases ih hj1 with ⟨h1, h2⟩
        subst hj2
        exact ⟨Nat.succ_lt_succ h1, by simpa using h2⟩

/-- When the tail of the merged buffer holds a terminator, the element
variant's trim brings the buffer within `load`. -/
theorem elTrim_length_le (load : Nat) (m : List Char)
    (h : '\n' ∈ m.drop (m.length - load)) : (elTrim load m).length ≤ load := by
  unfold elTrim
  by_cases hlen : load < m.length
  · rw [if_pos hlen]
    cases hfind : jsIndexOfFromNl m (m.length - load) with
    | none =>
        have hnone : jsFindNl (m.drop (m.length - load)) = none :=
          Option.map_eq_none'.mp hfind
        exact absurd h (jsFindNl_eq_none hnone)
    | some p =>
        rcases Option.map_eq_some'.mp hfind with ⟨j, hj, hp⟩
        rcases jsFindNl_eq_some hj with ⟨hjlt, _⟩
        rw [List.length_drop] at hjlt
        simp only [List.length_drop]
        omega
  · rw [if_neg hlen]
    omega

/-- The element variant's trim removes a prefix that is empty or ends right
after a line terminator. -/
theorem elTrim_suffix (load : Nat) (m : List Char) :
    ∃ p, m = p ++ elTrim load m ∧ (p = [] ∨ ∃ q, p = q ++ ['\n']) := by
  unfold elTrim
  by_cases hlen : load < m.length
  · rw [if_pos hlen]
    cases hfind : jsIndexOfFromNl m (m.length - load) with
    | none => exact ⟨[], rfl, Or.inl rfl⟩
    | some p =>
        rcases Option.map_eq_some'.mp hfind with ⟨j, hj, hp⟩
        rcases jsFindNl_eq_some hj with ⟨hjlt, hget⟩
        have hget2 : m[p]? = some '\n' := by
          rw [List.getElem?_drop] at hget
          rw [← hp]
          exact hget
        refine ⟨m.take (p + 1), (List.take_append_drop (p + 1) m).symm,
          Or.inr ⟨m.take p, ?_⟩⟩
        rw [List.take_succ, hget2]
        rfl
  · rw [if_neg hlen]
    exact ⟨[], rfl, Or.inl rfl⟩

/-- Across a run of element-variant merge steps, the final buffer is the
concatenation of the anchor-dropped bodies minus a prefix removed only at a
line boundary. -/
theorem elMergeStep_fold (load : Nat) (bodies : List (List Char))
    (buf : List Char) :
    ∃ p, buf ++ (bodies.map (List.drop 1)).flatten =
        p ++ List.foldl (elMergeStep load) buf bodies ∧
      (p = [] ∨ ∃ q, p = q ++ ['\n']) := by
  induction bodies generalizing buf with
  | nil => exact ⟨[], by simp, Or.inl rfl⟩
  | cons b bs ih =>
      rcases elTrim_suffix load (buf ++ b.drop 1) with ⟨p1, h1, hn1⟩
      rcases ih (elMergeStep load buf b) with ⟨p2, h2, hn2⟩
      have h1m : buf ++ b.drop 1 = p1 ++ elMergeStep load buf b := h1
      refine ⟨p1 ++ p2, ?_, ?_⟩
      · calc buf ++ ((b :: bs).map (List.drop 1)).flatten
            = (buf ++ b.drop 1) ++ (bs.map (List.drop 1)).flatten := by
              simp [List.append_assoc]
          _ = (p1 ++ elMergeStep load buf b) ++ (bs.map (List.drop 1)).flatten := by
              rw [h1m]
          _ = p1 ++ (elMergeStep load buf b ++ (bs.map (List.drop 1)).flatten) := by
              rw [List.append_assoc]
          _ = p1 ++ (p2 ++ List.foldl (elMergeStep load) (elMergeStep load buf b) bs) := by
              rw [h2]
          _ = (p1 ++ p2) ++ List.foldl (elMergeStep load) buf (b :: bs) := by
              rw [List.append_assoc]
              rfl
      · rcases hn2 with rfl | ⟨q2, rfl⟩
        · rw [List.append_nil]
          exact hn1
        · exact Or.inr ⟨p1 ++ q2, by rw [List.append_assoc]⟩

/-- `getRange` never touches `_pollInterval`. -/
theorem getRange_pollIntervalRaw (s : Session) (p : Except Err Nat) :
    (getRange s p).1.pollIntervalRaw = s.pollIntervalRaw := by
  unfold getRange
  repeat' first | rfl | split

/-- `sendRangeRequest` never touches `_pollInterval`. -/
theorem sendRangeRequest_pollIntervalRaw (s : Session) (t : Transport) :
    (sendRangeRequest s t).1.pollIntervalRaw = s.pollIntervalRaw := by
  unfold sendRangeRequest
  repeat' first | rfl | split

/-- `getLog` never touches `_pollInterval`. -/
theorem getLog_pollIntervalRaw (s : Session) (p : Except Err Nat)
    (t : Transport) : (getLog s p t).1.pollIntervalRaw = s.pollIntervalRaw := by
  unfold getLog
  cases h1 : getRange s p with
  | mk s1 r1 =>
      have e1 : s1.pollIntervalRaw = s.pollIntervalRaw := by
        have h := getRange_pollIntervalRaw s p
        rw [h1] at h
        exact h
      cases r1 with
      | error e => exact e1
      | ok rg =>
          dsimp only
          cases h2 : sendRangeRequest s1 t with
          | mk s2 r2 =>
              have e2 : s2.pollIntervalRaw = s1.pollIntervalRaw := by
                have h := sendRangeRequest_pollIntervalRaw s1 t
                rw [h2] at h
                exact h
              cases r2 with
              | error e => exact e2.trans e1
              | ok data =>
                  dsimp only
                  have egoal : s2.pollIntervalRaw = s.pollIntervalRaw := e2.trans e1
                  repeat' first | exact egoal | split

/-- A successful non-first-load 206 cycle of the class implementation:
the plan marks the cycle non-first-load, the size is updated from the
Content-Range total, the anchor-dropped body is appended, the data-appended
event carries exactly the appended slice, and the next cycle is scheduled. -/
theorem poll_206 (s : Session) (probe : Except Err Nat) (n total j : Nat)
    (cr cl body : List Char)
    (hp : s.paused = false) (hl : s.loading = false)
    (hsz : s.logFileSizeRaw = some (n + 1))
    (hcrne : cr.isEmpty = false)
    (hcr : parseInt2 ((splitOnChar '/' cr)[1]?) = Except.ok total)
    (hcl : parseInt2 (some cl) = Except.ok j) :
    poll s probe (Transport.resp ⟨206, some cr, some cl, body⟩) =
      ⟨{ s with firstLoad := false, mustGet206 := decide (n + 1 > 1),
                logFileSizeRaw := some total, loading := false,
                logData := s.logData ++ body.drop 1 },
       [Ev.dataAppended (body.drop 1)], true, some (pollInterval s)⟩ := by
  obtain ⟨raw, fl, mg, ld, lb, pi, pa, lo⟩ := s
  simp only at hp hl hsz
  subst hp hl hsz
  simp [poll, getLog, getRange, sendRangeRequest, logFileSize, pollInterval, hcrne, hcr, hcl]

/-- A transport failure on a non-first-load cycle: the fetch error is emitted
once on its typed channel and once on the generic channel, `paused` is left
alone, `loading` stays set (the reset line is skipped by the throw), and the
next cycle is still scheduled. -/
theorem poll_fail (s : Session) (probe : Except Err Nat) (n : Nat)
    (hp : s.paused = false) (hl : s.loading = false)
    (hsz : s.logFileSizeRaw = some (n + 1)) :
    poll s probe Transport.fail =
      ⟨{ s with loading := true, firstLoad := false,
                mustGet206 := decide (n + 1 > 1) },
       [Ev.typedErr Err.fetchError, Ev.genericErr Err.fetchError], true,
       some (pollInterval s)⟩ := by
  obtain ⟨raw, fl, mg, ld, lb, pi, pa, lo⟩ := s
  simp only at hp hl hsz
  subst hp hl hsz
  simp [poll, getLog, getRange, sendRangeRequest, logFileSize, pollInterval]

/-- An unchanged cycle (206, one-byte body, total equal to the current size)
is a fixed point of the session state, and still emits a data-appended event
whose content is empty. -/
theorem poll_unchanged_fix (s : Session) (probe : Except Err Nat) (n j : Nat)
    (c : Char) (cr cl : List Char)
    (hp : s.paused = false) (hl : s.loading = false)
    (hf : s.firstLoad = false) (hm : s.mustGet206 = decide (n + 1 > 1))
    (hsz : s.logFileSizeRaw = some (n + 1))
    (hcrne : cr.isEmpty = false)
    (hcr : parseInt2 (splitOnChar '/' cr)[1]? = Except.ok (n + 1))
    (hcl : parseInt2 (some cl) = Except.ok j) :
    poll s probe (Transport.resp ⟨206, some cr, some cl, [c]⟩) =
      ⟨s, [Ev.dataAppended []], true, some (pollInterval s)⟩ := by
  rw [poll_206 s probe n (n + 1) j cr cl [c] hp hl hsz hcrne hcr hcl]
  obtain ⟨raw, fl, mg, ld, lb, pi, pa, lo⟩ := s
  simp only at hp hl hf hm hsz
  subst hp hl hf hm hsz
  simp

/-- Over a run of well-formed 206 cycles, the class implementation's buffer
grows by exactly the concatenation of the anchor-dropped bodies. -/
theorem runCycles_good (probe : Except Err Nat) :
    ∀ (ins : List CycleIn) (s : Session) (n : Nat),
      s.paused = false → s.loading = false →
      s.logFileSizeRaw = some (n + 1) →
      (∀ cin ∈ ins, goodIn cin) →
      (runCycles probe s ins).logData =
        s.logData ++ (ins.map (fun cin => cin.body.drop 1)).flatten := by
  intro ins
  induction ins with
  | nil =>
      intro s n _ _ _ _
      simp [runCycles]
  | cons cin rest ih =>
      intro s n hp hl hsz hgood
      rcases hgood cin (List.mem_cons_self _ _) with ⟨⟨t, hcr⟩, hcrne, j, hcl⟩
      rw [runCycles,
        poll_206 s probe n (t + 1) j cin.cr cin.cl cin.body hp hl hsz hcrne hcr hcl]
      dsimp only
      rw [ih { s with firstLoad := false, mustGet206 := decide (n + 1 > 1),
                      logFileSizeRaw := some (t + 1), loading := false,
                      logData := s.logData ++ cin.body.drop 1 } t hp rfl rfl
            (fun c hc => hgood c (List.mem_cons_of_mem _ hc))]
      simp [List.append_assoc]

/-! ## Claim theorems -/

/-- C1 (amended): in the class implementation's `sendRangeRequest` a 416
response bearing a Content-Range header raises the truncation error, an
outcome distinct from the unexpected-server-response error; a 416 without
that header instead surfaces a `TypeError` raised while the truncation
message dereferences the missing header. -/
theorem c1_theorem (s : Session) (cl : Option (List Char)) (crv body : List Char) :
    sendRangeRequest s (Transport.resp ⟨416, some crv, cl, body⟩) =
      (s, Except.error Err.truncated) ∧
    sendRangeRequest s (Transport.resp ⟨416, none, cl, body⟩) =
      (s, Except.error Err.typeError) ∧
    Err.truncated ≠ Err.unexpected 416 :=
  ⟨rfl, rfl, by decide⟩

/-- C1 counterexample: a 416 response carrying no Content-Range header is
surfaced as a `TypeError`, not as the truncation outcome the claim requires
of every 416 response. -/
theorem c1_counterexample :
    (sendRangeRequest ⟨some 100, false, true, [], none, none, false, false⟩
        (Transport.resp ⟨416, none, some ("30".toList), "x".toList⟩)).2 =
      Except.error Err.typeError ∧
    Err.typeError ≠ Err.truncated :=
  ⟨rfl, by decide⟩

/-- C2 (amended): the element variant's merge+trim step keeps the buffer
within `loadBytes` whenever the merged buffer contains a line terminator at
or after position `length - loadBytes`; when no terminator lies there the
trim removes nothing and the bound can be exceeded. -/
theorem c2_theorem (load : Nat) (buf body : List Char)
    (h : '\n' ∈ (buf ++ body.drop 1).drop ((buf ++ body.drop 1).length - load)) :
    (elMergeStep load buf body).length ≤ load :=
  elTrim_length_le load (buf ++ body.drop 1) h

/-- C2 witness: a merge whose tail region holds a terminator is trimmed to
within the bound. -/
theorem c2_witness :
    '\n' ∈ (([] : List Char) ++ ("xabc\nd".toList).drop 1).drop
        ((([] : List Char) ++ ("xabc\nd".toList).drop 1).length - 2) ∧
    (elMergeStep 2 [] ("xabc\nd".toList)).length ≤ 2 :=
  ⟨by decide, c2_theorem 2 [] ("xabc\nd".toList) (by decide)⟩

/-- C2 counterexample: with `loadBytes = 2`, a first cycle performs a full
trim (buffer "d"), yet the next cycle's newline-free body leaves the
buffer at 4 characters, above the bound the claim asserts for every
sequence of cycles. -/
theorem c2_counterexample :
    elMergeStep 2 [] ("xabc\nd".toList) = "d".toList ∧
    elMergeStep 2 ("d".toList) ("xefg".toList) = "defg".toList ∧
    (elMergeStep 2 ("d".toList) ("xefg".toList)).length > 2 := by
  refine ⟨?_, ?_, ?_⟩ <;> decide

/-- C3 (amended): a transport failure of the range request emits the fetch
error exactly once on its typed channel (plus once on the generic error
channel), leaves `paused` untouched, leaves `loading` stuck set (the reset
after `getLog` is skipped by the throw), and still schedules the next
cycle. -/
theorem c3_theorem (s : Session) (probe : Except Err Nat) (n : Nat)
    (hp : s.paused = false) (hl : s.loading = false)
    (hsz : s.logFileSizeRaw = some (n + 1)) :
    (poll s probe Transport.fail).events =
      [Ev.typedErr Err.fetchError, Ev.genericErr Err.fetchError] ∧
    (poll s probe Transport.fail).state.paused = false ∧
    (poll s probe Transport.fail).state.loading = true ∧
    (poll s probe Transport.fail).schedule = some (pollInterval s) := by
  rw [poll_fail s probe n hp hl hsz]
  exact ⟨rfl, hp, rfl, rfl⟩

/-- C3 witness: a concrete transport failure showing the emissions and the
unchanged pause flag. -/
theorem c3_witness :
    (poll ⟨some 5, false, true, "abc".toList, none, none, false, false⟩
        (Except.ok 1) Transport.fail).events =
      [Ev.typedErr Err.fetchError, Ev.genericErr Err.fetchError] ∧
    (poll ⟨some 5, false, true, "abc".toList, none, none, false, false⟩
        (Except.ok 1) Transport.fail).state.paused = false ∧
    (poll ⟨some 5, false, true, "abc".toList, none, none, false, false⟩
        (Except.ok 1) Transport.fail).state.loading = true ∧
    (poll ⟨some 5, false, true, "abc".toList, none, none, false, false⟩
        (Except.ok 1) Transport.fail).schedule = some 1000 :=
  c3_theorem ⟨some 5, false, true, "abc".toList, none, none, false, false⟩
    (Except.ok 1) 4 rfl rfl rfl

/-- C3 counterexample: after a transport failure the session is not paused
and the next cycle is scheduled, contradicting the claimed transition to
`paused` instead of continued polling. -/
theorem c3_counterexample :
    (poll ⟨some 2, false, true, "x".toList, none, none, false, false⟩
        (Except.ok 1) Transport.fail).state.paused = false ∧
    (poll ⟨some 2, false, true, "x".toList, none, none, false, false⟩
        (Except.ok 1) Transport.fail).schedule = some 1000 :=
  ⟨rfl, rfl⟩

/-- C4: the element variant's merge appends exactly the anchor-dropped body
and its trim removes only a prefix ending right after a line terminator, so
a run of merge steps produces the concatenation of the anchor-dropped bodies
minus a line-boundary prefix; and in the class implementation a run of
successful non-first-load 206 cycles appends exactly the concatenation of
the anchor-dropped bodies (it never trims). -/
theorem c4_theorem (load : Nat) (buf : List Char) (bodies : List (List Char))
    (probe : Except Err Nat) (s : Session) (ins : List CycleIn) (n : Nat)
    (hp : s.paused = false) (hl : s.loading = false)
    (hsz : s.logFileSizeRaw = some (n + 1))
    (hgood : ∀ cin ∈ ins, goodIn cin) :
    (∃ p, buf ++ (bodies.map (List.drop 1)).flatten =
        p ++ List.foldl (elMergeStep load) buf bodies ∧
        (p = [] ∨ ∃ q, p = q ++ ['\n'])) ∧
    (runCycles probe s ins).logData =
      s.logData ++ (ins.map (fun cin => cin.body.drop 1)).flatten :=
  ⟨elMergeStep_fold load bodies buf, runCycles_good probe ins s n hp hl hsz hgood⟩

/-- C4 witness: two concrete cycles whose bodies are appended anchor-dropped,
in both embeddings. -/
theorem c4_witness :
    (∃ p, "A\n".toList ++
        (([("xhi".toList), ("xyo".toList)]).map (List.drop 1)).flatten =
        p ++ List.foldl (elMergeStep 2) ("A\n".toList)
          [("xhi".toList), ("xyo".toList)] ∧
        (p = [] ∨ ∃ q, p = q ++ ['\n'])) ∧
    (runCycles (Except.ok 1)
        ⟨some 2, false, true, "A\n".toList, none, none, false, false⟩
        [⟨"1-6/7".toList, "6".toList, "xhello\n".toList⟩,
         ⟨"7-12/13".toList, "5".toList, "xworld".toList⟩]).logData =
      "A\n".toList ++
        (([(⟨"1-6/7".toList, "6".toList, "xhello\n".toList⟩ : CycleIn),
           ⟨"7-12/13".toList, "5".toList, "xworld".toList⟩]).map
          (fun cin => cin.body.drop 1)).flatten :=
  c4_theorem 2 ("A\n".toList) [("xhi".toList), ("xyo".toList)] (Except.ok 1)
    ⟨some 2, false, true, "A\n".toList, none, none, false, false⟩
    [⟨"1-6/7".toList, "6".toList, "xhello\n".toList⟩,
     ⟨"7-12/13".toList, "5".toList, "xworld".toList⟩] 1 rfl rfl rfl
    (by
      intro c hc
      rcases List.mem_cons.mp hc with rfl | hc2
      · exact ⟨⟨6, rfl⟩, rfl, 6, rfl⟩
      · rcases List.mem_cons.mp hc2 with rfl | hc3
        · exact ⟨⟨12, rfl⟩, rfl, 5, rfl⟩
        · cases hc3)

/-- C5 evaluation at the failing input: on a first load whose reported total
(100) strictly exceeds the body length (5), the class implementation keeps
the body verbatim - the clip guard compares the undefined `data.size` - while
the element variant's guard (Content-Length below total) clips through the
first line terminator as the claim requires. -/
theorem c5_theorem :
    (getLog sFresh (Except.ok 100) (Transport.resp rClip)).1.logData =
      "ab\ncd".toList ∧
    (getLog sFresh (Except.ok 100) (Transport.resp rClip)).2 =
      Except.ok ("ab\ncd".toList) ∧
    elFirstLoadMerge 5 100 ("ab\ncd".toList) = "cd".toList :=
  ⟨rfl, rfl, by decide⟩

/-- C6: on a first-load cycle whose body exceeds `loadBytes`, `getLog` throws
the response-too-long error and performs no merge - the buffer is unchanged -
regardless of the reported total size, so a body as long as the total but
longer than `loadBytes` is still rejected. -/
theorem c6_theorem (s : Session) (m total j : Nat) (cr cl body : List Char)
    (hraw : s.logFileSizeRaw = none)
    (hcrne : cr.isEmpty = false)
    (hcr : parseInt2 (splitOnChar '/' cr)[1]? = Except.ok total)
    (hcl : parseInt2 (some cl) = Except.ok j)
    (hlen : body.length > loadBytes s) :
    (getLog s (Except.ok (m + 1))
        (Transport.resp ⟨206, some cr, some cl, body⟩)).2 =
      Except.error (Err.tooLong body.length) ∧
    (getLog s (Except.ok (m + 1))
        (Transport.resp ⟨206, some cr, some cl, body⟩)).1.logData =
      s.logData := by
  obtain ⟨raw, fl, mg, ld, lb, pi, pa, lo⟩ := s
  simp only at hraw hlen
  subst hraw
  simp only [loadBytes] at hlen
  constructor <;>
    simp [getLog, getRange, sendRangeRequest, logFileSize, loadBytes,
      hcrne, hcr, hcl, hlen]

/-- C6 witness: `loadBytes = 2`, body of length 3 equal to the reported
total 3 - still rejected, buffer untouched. -/
theorem c6_witness :
    (getLog ⟨none, false, false, "k".toList, some 2, none, false, false⟩
        (Except.ok 3)
        (Transport.resp ⟨206, some ("0-2/3".toList), some ("3".toList),
          "abc".toList⟩)).2 =
      Except.error (Err.tooLong ("abc".toList).length) ∧
    (getLog ⟨none, false, false, "k".toList, some 2, none, false, false⟩
        (Except.ok 3)
        (Transport.resp ⟨206, some ("0-2/3".toList), some ("3".toList),
          "abc".toList⟩)).1.logData =
      "k".toList :=
  c6_theorem ⟨none, false, false, "k".toList, some 2, none, false, false⟩
    2 3 3 ("0-2/3".toList) ("3".toList) ("abc".toList)
    rfl rfl rfl rfl (by decide)

/-- C7 (amended): a cycle issues its request exactly when
`!paused && !loading`; a cycle that ran (successfully or not) schedules the
next cycle after `pollInterval`, while a skipped cycle returns before the
`setTimeout` line and schedules nothing, so a skip ends the timer chain. -/
theorem c7_theorem (s : Session) (probe : Except Err Nat) (t : Transport) :
    (poll s probe t).requested = (!s.paused && !s.loading) ∧
    (poll s probe t).schedule =
      (if s.paused || s.loading then none else some (pollInterval s)) ∧
    ((s.paused || s.loading) = true → poll s probe t = ⟨s, [], false, none⟩) := by
  obtain ⟨raw, fl, mg, ld, lb, pi, pa, lo⟩ := s
  cases pa with
  | true => simp [poll]
  | false =>
      cases lo with
      | true => simp [poll]
      | false =>
          simp only [poll]
          cases hg : getLog ⟨raw, fl, mg, ld, lb, pi, false, true⟩ probe t with
          | mk s2 r2 =>
              have h := getLog_pollIntervalRaw ⟨raw, fl, mg, ld, lb, pi, false, true⟩
                probe t
              rw [hg] at h
              simp only at h
              cases r2 <;> simp [pollInterval, h]

/-- C7 witness: a paused session's cycle is a no-op that does not
reschedule. -/
theorem c7_witness :
    poll ⟨some 5, false, true, [], none, none, true, false⟩ (Except.ok 1)
        Transport.fail =
      ⟨⟨some 5, false, true, [], none, none, true, false⟩, [], false, none⟩ :=
  (c7_theorem ⟨some 5, false, true, [], none, none, true, false⟩ (Except.ok 1)
    Transport.fail).2.2 rfl

/-- C7 counterexample: a cycle skipped because `loading` is set schedules no
next cycle, contradicting the claim that the next cycle is scheduled in all
cases including skips. -/
theorem c7_counterexample :
    (poll ⟨some 5, false, true, "abc".toList, none, none, false, true⟩
        (Except.ok 1)
        (Transport.resp ⟨206, some ("4-4/5".toList), some ("1".toList),
          "x".toList⟩)).schedule = none ∧
    (poll ⟨some 5, false, true, "abc".toList, none, none, false, true⟩
        (Except.ok 1)
        (Transport.resp ⟨206, some ("4-4/5".toList), some ("1".toList),
          "x".toList⟩)).requested = false :=
  ⟨rfl, rfl⟩

/-- C8 (amended): any number of unchanged cycles (206, one-byte body, total
equal to the current size) leaves the session - in particular the buffer -
exactly fixed, but every such cycle emits a data-appended notification whose
content is the empty string. -/
theorem c8_theorem (s : Session) (probe : Except Err Nat) (n j k : Nat)
    (c : Char) (cr cl : List Char)
    (hp : s.paused = false) (hl : s.loading = false)
    (hf : s.firstLoad = false) (hm : s.mustGet206 = decide (n + 1 > 1))
    (hsz : s.logFileSizeRaw = some (n + 1))
    (hcrne : cr.isEmpty = false)
    (hcr : parseInt2 (splitOnChar '/' cr)[1]? = Except.ok (n + 1))
    (hcl : parseInt2 (some cl) = Except.ok j) :
    iterCycles probe (Transport.resp ⟨206, some cr, some cl, [c]⟩) k s = s ∧
    (poll s probe (Transport.resp ⟨206, some cr, some cl, [c]⟩)).events =
      [Ev.dataAppended []] := by
  have hfix := poll_unchanged_fix s probe n j c cr cl hp hl hf hm hsz hcrne hcr hcl
  constructor
  · induction k with
    | zero => rfl
    | succ k2 ih =>
        simp only [iterCycles, hfix]
        exact ih
  · rw [hfix]

/-- C8 witness: three concrete unchanged cycles fix the session and each
emits the empty data-appended event. -/
theorem c8_witness :
    iterCycles (Except.ok 1)
        (Transport.resp ⟨206, some ("4-4/5".toList), some ("1".toList),
          "x".toList⟩) 3
        ⟨some 5, false, true, "abc".toList, none, none, false, false⟩ =
      ⟨some 5, false, true, "abc".toList, none, none, false, false⟩ ∧
    (poll ⟨some 5, false, true, "abc".toList, none, none, false, false⟩
        (Except.ok 1)
        (Transport.resp ⟨206, some ("4-4/5".toList), some ("1".toList),
          "x".toList⟩)).events = [Ev.dataAppended []] :=
  c8_theorem ⟨some 5, false, true, "abc".toList, none, none, false, false⟩
    (Except.ok 1) 4 1 3 'x' ("4-4/5".toList) ("1".toList)
    rfl rfl rfl rfl rfl rfl rfl rfl

/-- C8 counterexample: an unchanged cycle leaves the buffer alone yet emits
a data-appended notification carrying empty content, which the claim rules
out. -/
theorem c8_counterexample :
    (poll ⟨some 5, false, true, "log".toList, none, none, false, false⟩
        (Except.ok 1)
        (Transport.resp ⟨206, some ("4-4/5".toList), some ("1".toList),
          "x".toList⟩)).events = [Ev.dataAppended []] ∧
    (poll ⟨some 5, false, true, "log".toList, none, none, false, false⟩
        (Except.ok 1)
        (Transport.resp ⟨206, some ("4-4/5".toList), some ("1".toList),
          "x".toList⟩)).state.logData = "log".toList :=
  ⟨rfl, rfl⟩

/-- C9 (amended): with a known size `s ≥ 1` the plan is the open-ended range
`(s-1)-` with `firstLoad = false` and `mustGet206` exactly when `s > 1`;
with no known size the class implementation first probes the size over a
HEAD request and plans the suffix range `-min(loadBytes, probedSize)` with
`firstLoad = true` and `mustGet206 = false`. -/
theorem c9_theorem (s : Session) (n m : Nat) (probe : Except Err Nat) :
    (s.logFileSizeRaw = some (n + 1) →
      getRange s probe =
        ({ s with firstLoad := false, mustGet206 := decide (n + 1 > 1) },
         Except.ok (Nat.repr n ++ "-"))) ∧
    (s.logFileSizeRaw = none →
      getRange s (Except.ok (m + 1)) =
        ({ s with logFileSizeRaw := some (m + 1), firstLoad := true,
                  mustGet206 := false },
         Except.ok ("-" ++ Nat.repr
           (if loadBytes s > m + 1 then m + 1 else loadBytes s)))) := by
  constructor
  · intro h
    obtain ⟨raw, fl, mg, ld, lb, pi, pa, lo⟩ := s
    simp only at h
    subst h
    simp [getRange, logFileSize]
  · intro h
    obtain ⟨raw, fl, mg, ld, lb, pi, pa, lo⟩ := s
    simp only at h
    subst h
    simp [getRange, logFileSize, loadBytes]

/-- C9 witness: known size 36000 plans "35999-"; no known size with probed
size 10000 and default loadBytes plans "-10000". -/
theorem c9_witness :
    getRange ⟨some 36000, false, false, [], none, none, false, false⟩
        (Except.ok 1) =
      (⟨some 36000, false, true, [], none, none, false, false⟩,
       Except.ok "35999-") ∧
    getRange ⟨none, false, false, [], none, none, false, false⟩
        (Except.ok 10000) =
      (⟨some 10000, true, false, [], none, none, false, false⟩,
       Except.ok "-10000") := by
  constructor
  · have h := (c9_theorem ⟨some 36000, false, false, [], none, none, false, false⟩
      35999 0 (Except.ok 1)).1 rfl
    rw [h]
    rfl
  · have h := (c9_theorem ⟨none, false, false, [], none, none, false, false⟩
      0 9999 (Except.ok 1)).2 rfl
    rw [h]
    rfl

/-- C9 counterexample: with the default `loadBytes` (30720) explicitly set
and a probed size of 10000, the planned first-load range is "-10000", not
the "-30720" (`-loadBytes`) the claim states. -/
theorem c9_counterexample :
    loadBytes ⟨none, false, false, [], some 30720, none, false, false⟩ = 30720 ∧
    (getRange ⟨none, false, false, [], some 30720, none, false, false⟩
        (Except.ok 10000)).2 = Except.ok "-10000" ∧
    ("-10000" : String) ≠ "-30720" :=
  ⟨rfl, rfl, by decide⟩

/-- C10: a recorded size of 0 makes the public `logFileSize` getter return
`null`, exactly like a never-assigned size, and `getRange` then plans an
identical first-load cycle (same plan, same flags, same outcome for every
probe result) in both states. -/
theorem c10_theorem (s : Session) (m : Nat) (probe : Except Err Nat) :
    logFileSize { s with logFileSizeRaw := some 0 } = none ∧
    logFileSize { s with logFileSizeRaw := none } = none ∧
    getRange { s with logFileSizeRaw := some 0 } (Except.ok (m + 1)) =
      getRange { s with logFileSizeRaw := none } (Except.ok (m + 1)) ∧
    (getRange { s with logFileSizeRaw := some 0 }
        (Except.ok (m + 1))).1.firstLoad = true ∧
    (getRange { s with logFileSizeRaw := some 0 }
        (Except.ok (m + 1))).1.mustGet206 = false ∧
    (getRange { s with logFileSizeRaw := some 0 } probe).2 =
      (getRange { s with logFileSizeRaw := none } probe).2 := by
  refine ⟨rfl, rfl, rfl, rfl, rfl, ?_⟩
  cases probe with
  | error e => rfl
  | ok k =>
      cases k with
      | zero => rfl
      | succ k2 => rfl

end LogTail
